import Mathlib

/-!
Shallow embedding of the realtime anime-filter web app (src/unnamed/part_000)
and verification of spec claims about its processing pipeline, quality
controller and configuration state.
-/

namespace AnimeFilter

/-- The `filterParams` state record (part_000 lines 31-39).  Kernel sizes and
sigmas are integers in the source UI; `intensity` is a fractional slider value
(0 to 1 in steps of 0.1), modelled as a rational. -/
structure FilterParams where
  bilateralD : ℕ
  bilateralSigmaColor : ℕ
  bilateralSigmaSpace : ℕ
  medianBlur : ℕ
  adaptiveBlockSize : ℕ
  adaptiveC : ℕ
  intensity : ℚ
deriving Repr, DecidableEq

/-- Initial `filterParams` value (part_000 lines 31-39). -/
def defaultFilterParams : FilterParams :=
  { bilateralD := 7
    bilateralSigmaColor := 75
    bilateralSigmaSpace := 75
    medianBlur := 5
    adaptiveBlockSize := 9
    adaptiveC := 2
    intensity := 1 }

/-- The `processingQuality` state: 'high' | 'medium' | 'low' (line 45). -/
inductive Quality where
  | high
  | medium
  | low
deriving Repr, DecidableEq

/-- The `adjustedParams` computation at the top of `cartoonizeImage`
(part_000 lines 541-550).  `Math.floor(x / 2)` on a nonnegative integer is
Nat division by 2; `Math.floor(x * 0.75)` is `x * 3 / 4` in Nat arithmetic
(0.75 is exactly 3/4 in binary floating point and `x * 0.75` is exact for the
integer slider range). -/
def adjustParams (q : Quality) (p : FilterParams) : FilterParams :=
  match q with
  | .low =>
      { p with
        bilateralD := max 3 (p.bilateralD / 2)
        medianBlur := max 3 (p.medianBlur / 2)
        adaptiveBlockSize := max 3 (p.adaptiveBlockSize / 2) }
  | .medium =>
      { p with bilateralD := max 3 (p.bilateralD * 3 / 4) }
  | .high => p

/-- The frame-skip auto-adjust block at the end of a processed tick
(part_000 lines 497-506), i.e. the QualityController's `recordCycle`:

```js
if (isMobile && processingTime > 100) {
  if (frameSkip < 4) setFrameSkip(prev => prev + 1);
} else if (isMobile && processingTime < 50 && frameSkip > 1) {
  setFrameSkip(prev => Math.max(1, prev - 1));
}
```
-/
def recordCycle (isMobile : Bool) (elapsedMs : ℚ) (frameSkip : ℕ) : ℕ :=
  if isMobile = true ∧ elapsedMs > 100 then
    if frameSkip < 4 then frameSkip + 1 else frameSkip
  else if isMobile = true ∧ elapsedMs < 50 ∧ frameSkip > 1 then
    max 1 (frameSkip - 1)
  else frameSkip

/-- Folding `recordCycle` over a sequence of elapsed-time samples. -/
def runCycles (isMobile : Bool) (es : List ℚ) (frameSkip : ℕ) : ℕ :=
  es.foldl (fun s e => recordCycle isMobile e s) frameSkip

/-- The update rule exactly as claim C2 words it: the decrease clause carries
no constrained-context precondition.  (Spec-side definition, used only to be
compared with `recordCycle`.) -/
def recordCycleClaimC2 (isMobile : Bool) (elapsedMs : ℚ) (frameSkip : ℕ) : ℕ :=
  if isMobile = true ∧ elapsedMs > 100 then
    min (frameSkip + 1) 4
  else if elapsedMs < 50 ∧ frameSkip > 1 then
    max 1 (frameSkip - 1)
  else frameSkip

/-- Names of the OpenCV primitive calls issued by `cartoonizeImage` and its
fallback (part_000 lines 518-629).  `cvtColor` is split by conversion code,
matching the three distinct pipeline uses. -/
inductive Prim where
  | cvtColorRGBA2RGB
  | copyTo
  | bilateralFilter
  | cvtColorRGB2GRAY
  | medianBlurCall
  | adaptiveThresholdCall
  | cvtColorGRAY2RGB
  | bitwiseAnd
  | addWeighted
deriving Repr, DecidableEq

/-- Symbolic value of a `cv.Mat`: a term recording how the buffer was computed
from the input frame `img` of `cartoonizeImage`. -/
inductive MatVal where
  | input
  | rgbOfInput
  | copy (m : MatVal)
  | bilateral (d sigmaColor sigmaSpace : ℕ) (m : MatVal)
  | gray (m : MatVal)
  | median (k : ℕ) (m : MatVal)
  | adaptive (blockSize c : ℕ) (m : MatVal)
  | grayToRGB (m : MatVal)
  | band (a b : MatVal)
  | blend (w1 : ℚ) (a : MatVal) (w2 : ℚ) (b : MatVal)
  | resizeLinear (m : MatVal)
deriving Repr, DecidableEq

/-- Channel count of a symbolic buffer, given whether the input frame `img`
was already 3-channel (`img.type() === cv.CV_8UC3`).  In the app the input
comes from `cv.matFromImageData`, hence is 4-channel RGBA. -/
def channels (inputIsRGB : Bool) : MatVal → ℕ
  | .input => if inputIsRGB then 3 else 4
  | .rgbOfInput => 3
  | .copy m => channels inputIsRGB m
  | .bilateral _ _ _ m => channels inputIsRGB m
  | .gray _ => 1
  | .median _ m => channels inputIsRGB m
  | .adaptive _ _ m => channels inputIsRGB m
  | .grayToRGB _ => 3
  | .band a _ => channels inputIsRGB a
  | .blend _ a _ _ => channels inputIsRGB a
  | .resizeLinear m => channels inputIsRGB m

/-- A `cv.Mat` object of the interpreter: allocation id plus symbolic value. -/
structure Buf where
  id : ℕ
  val : MatVal
deriving Repr, DecidableEq

/-- Interpreter state for one `cartoonizeImage` invocation: fresh-id counter,
ids of allocated and not-yet-deleted Mats, and the ordered log of primitive
calls issued. -/
structure CartState where
  nextId : ℕ
  live : List ℕ
  calls : List Prim
deriving Repr, DecidableEq

def initState : CartState := { nextId := 0, live := [], calls := [] }

/-- `new cv.Mat()`: allocate a fresh (empty) Mat. -/
def newMat (s : CartState) : ℕ × CartState :=
  (s.nextId, { s with nextId := s.nextId + 1, live := s.live ++ [s.nextId] })

/-- `mat.delete()`. -/
def deleteMat (i : ℕ) (s : CartState) : CartState :=
  { s with live := s.live.erase i }

/-- Issue one OpenCV primitive call; the oracle `fails` says whether that call
throws (e.g. malformed buffer, unsupported kernel size). -/
def invoke (p : Prim) (fails : Prim → Bool) (s : CartState) : Bool × CartState :=
  (fails p, { s with calls := s.calls ++ [p] })

/-- The `catch` block of `cartoonizeImage` (part_000 lines 622-629): allocate a
fresh Mat, copy the original input into it and return it.  It deletes none of
the intermediates.  If the `copyTo` itself throws, the exception escapes
`cartoonizeImage` (result `none`). -/
def catchFallback (fails : Prim → Bool) (s : CartState) : Option Buf × CartState :=
  let a := newMat s
  let c := invoke .copyTo fails a.2
  if c.1 then (none, c.2) else (some ⟨a.1, .copy .input⟩, c.2)

/-- Shallow embedding of `cartoonizeImage` (part_000 lines 518-630), statement
by statement.  `imgIsRGB` is whether `img.type() === cv.CV_8UC3`.  Returns the
returned buffer (`none` when an exception escapes) and the final interpreter
state. -/
def cartoonizeImage (filterParams : FilterParams) (processingQuality : Quality)
    (imgIsRGB : Bool) (fails : Prim → Bool) : Option Buf × CartState :=
  -- const imgRGB = new cv.Mat(); cvtColor(img, imgRGB, RGBA2RGB) or img.copyTo(imgRGB)
  let m0 := newMat initState
  let c0 := invoke (if imgIsRGB then .copyTo else .cvtColorRGBA2RGB) fails m0.2
  if c0.1 then catchFallback fails c0.2 else
  let imgRGB : MatVal := if imgIsRGB then .copy .input else .rgbOfInput
  -- if (filterParams.intensity === 0) { imgRGB.delete(); result = copy of img }
  if filterParams.intensity = 0 then
    let s := deleteMat m0.1 c0.2
    let m1 := newMat s
    let c1 := invoke .copyTo fails m1.2
    if c1.1 then catchFallback fails c1.2
    else (some ⟨m1.1, .copy .input⟩, c1.2)
  else
  let ap := adjustParams processingQuality filterParams
  -- const imgColor = new cv.Mat(); cv.bilateralFilter(imgRGB, imgColor, d, sc, ss)
  let m1 := newMat c0.2
  let c1 := invoke .bilateralFilter fails m1.2
  if c1.1 then catchFallback fails c1.2 else
  let imgColor : MatVal :=
    .bilateral ap.bilateralD ap.bilateralSigmaColor ap.bilateralSigmaSpace imgRGB
  -- const imgGray = new cv.Mat(); cv.cvtColor(imgRGB, imgGray, RGB2GRAY)
  let m2 := newMat c1.2
  let c2 := invoke .cvtColorRGB2GRAY fails m2.2
  if c2.1 then catchFallback fails c2.2 else
  let imgGray : MatVal := .gray imgRGB
  -- const imgBlur = new cv.Mat(); cv.medianBlur(imgGray, imgBlur, k)
  let m3 := newMat c2.2
  let c3 := invoke .medianBlurCall fails m3.2
  if c3.1 then catchFallback fails c3.2 else
  let imgBlur : MatVal := .median ap.medianBlur imgGray
  -- const imgEdge = new cv.Mat(); cv.adaptiveThreshold(imgBlur, imgEdge, ..., bs, C)
  let m4 := newMat c3.2
  let c4 := invoke .adaptiveThresholdCall fails m4.2
  if c4.1 then catchFallback fails c4.2 else
  let imgEdge : MatVal := .adaptive ap.adaptiveBlockSize ap.adaptiveC imgBlur
  -- const imgEdgeColor = new cv.Mat(); cv.cvtColor(imgEdge, imgEdgeColor, GRAY2RGB)
  let m5 := newMat c4.2
  let c5 := invoke .cvtColorGRAY2RGB fails m5.2
  if c5.1 then catchFallback fails c5.2 else
  let imgEdgeColor : MatVal := .grayToRGB imgEdge
  -- const cartoon = new cv.Mat(); cv.bitwise_and(imgColor, imgEdgeColor, cartoon)
  let m6 := newMat c5.2
  let c6 := invoke .bitwiseAnd fails m6.2
  if c6.1 then catchFallback fails c6.2 else
  let cartoon : MatVal := .band imgColor imgEdgeColor
  if filterParams.intensity < 1 then
    -- const blended = new cv.Mat(); cv.addWeighted(imgRGB, 1-i, cartoon, i, 0, blended)
    let m7 := newMat c6.2
    let c7 := invoke .addWeighted fails m7.2
    if c7.1 then catchFallback fails c7.2 else
    let blended : MatVal :=
      .blend (1 - filterParams.intensity) imgRGB filterParams.intensity cartoon
    let s := deleteMat m0.1 c7.2
    let s := deleteMat m1.1 s
    let s := deleteMat m2.1 s
    let s := deleteMat m3.1 s
    let s := deleteMat m4.1 s
    let s := deleteMat m5.1 s
    let s := deleteMat m6.1 s
    (some ⟨m7.1, blended⟩, s)
  else
    let s := deleteMat m0.1 c6.2
    let s := deleteMat m1.1 s
    let s := deleteMat m2.1 s
    let s := deleteMat m3.1 s
    let s := deleteMat m4.1 s
    let s := deleteMat m5.1 s
    (some ⟨m6.1, cartoon⟩, s)

/-- Oracle under which no primitive call throws. -/
def noFail : Prim → Bool := fun _ => false

/-- The symbolic value of the normalized 3-channel buffer `imgRGB`. -/
def normVal (imgIsRGB : Bool) : MatVal :=
  if imgIsRGB then .copy .input else .rgbOfInput

/-- The symbolic value of the raw cartoon buffer built by the mainline
pipeline (steps 1-5). -/
def rawCartoonVal (filterParams : FilterParams) (processingQuality : Quality)
    (imgIsRGB : Bool) : MatVal :=
  let ap := adjustParams processingQuality filterParams
  .band
    (.bilateral ap.bilateralD ap.bilateralSigmaColor ap.bilateralSigmaSpace
      (normVal imgIsRGB))
    (.grayToRGB (.adaptive ap.adaptiveBlockSize ap.adaptiveC
      (.median ap.medianBlur (.gray (normVal imgIsRGB)))))

/-- Observable steps of one processing tick of `draw` (part_000 lines 414-506),
in source order:
- `timestampStart`: `const startTime = performance.now()` (line 414);
- `captureDownsample`: `ctx.drawImage(videoRef.current, 0, 0, processWidth,
  processHeight)` — captures the video frame and downsamples it (line 460);
- `matFromImageData`: `ctx.getImageData` + `cv.matFromImageData` (462-464);
- `cartoonize`: `const result = cartoonizeImage(src)` (line 476);
- `upsample`: `cv.resize(result, resized, new cv.Size(width, height), ...,
  INTER_LINEAR)` when the processing size differs (480-481);
- `render`: `cv.imshow(canvasRef.current, ...)` (482 or 485);
- `timestampEnd`: `const endTime = performance.now()` (line 493);
- `feedRecordCycle`: the frame-skip auto-adjust on `endTime - startTime`
  (495-506). -/
inductive TickEvent where
  | timestampStart
  | captureDownsample
  | matFromImageData
  | cartoonize
  | upsample
  | render
  | timestampEnd
  | feedRecordCycle
deriving Repr, DecidableEq

/-- Outcome of one processing tick of `draw`. -/
structure TickResult where
  rendered : Option MatVal
  events : List TickEvent
  frameSkipAfter : ℕ
deriving Repr, DecidableEq

/-- Shallow embedding of the processing segment of `draw` (part_000 lines
414-506), entered once the ready-state, frame-skip-counter and isProcessing
guards have passed.  `zeroDims` is `width === 0 || height === 0` (line 421);
`needResize` is `processWidth !== width || processHeight !== height` (line
479); `elapsedMs` is the wall-clock difference `endTime - startTime`, supplied
by the environment.  An exception escaping `cartoonizeImage` is caught by the
outer try/catch (lines 508-512): the tick then renders nothing and skips the
timing/auto-adjust code. -/
def drawTick (filterParams : FilterParams) (processingQuality : Quality)
    (imgIsRGB : Bool) (fails : Prim → Bool) (isMobile : Bool) (elapsedMs : ℚ)
    (frameSkip : ℕ) (zeroDims needResize : Bool) : TickResult :=
  if zeroDims then
    { rendered := none, events := [.timestampStart], frameSkipAfter := frameSkip }
  else
    match (cartoonizeImage filterParams processingQuality imgIsRGB fails).1 with
    | none =>
        { rendered := none
          events := [.timestampStart, .captureDownsample, .matFromImageData,
            .cartoonize]
          frameSkipAfter := frameSkip }
    | some b =>
        { rendered := some (if needResize then .resizeLinear b.val else b.val)
          events := [.timestampStart, .captureDownsample, .matFromImageData,
              .cartoonize] ++
            (if needResize then [.upsample] else []) ++
            [.render, .timestampEnd, .feedRecordCycle]
          frameSkipAfter := recordCycle isMobile elapsedMs frameSkip }

/-- Predicate formalizing claim C9's description of the timing sample: the
start timestamp is recorded immediately before the CartoonizeStage invocation
and the end timestamp immediately after it, so that nothing else lies between
the two timestamps. -/
def bracketsCartoonizeOnly (evs : List TickEvent) : Prop :=
  evs.indexOf .cartoonize = evs.indexOf .timestampStart + 1 ∧
  evs.indexOf .timestampEnd = evs.indexOf .cartoonize + 1

/-! Configuration-state model for the `filterParams` React state (claim C10).
Every `setFilterParams` call site in part_000 is one of the constructors
below; the two parameter panels (lines 1144-1282 and 1492-1600) have
identical handlers, and `applyPreset` (lines 904-906) installs a preset
record wholesale. -/

/-- The `filterPresets` table (part_000 lines 865-902). -/
def filterPresets : Fin 4 → FilterParams
  | 0 => { bilateralD := 15, bilateralSigmaColor := 120, bilateralSigmaSpace := 120,
           medianBlur := 7, adaptiveBlockSize := 11, adaptiveC := 3,
           intensity := 3/5 }        -- soft
  | 1 => { bilateralD := 7, bilateralSigmaColor := 75, bilateralSigmaSpace := 75,
           medianBlur := 5, adaptiveBlockSize := 9, adaptiveC := 2,
           intensity := 1 }          -- normal
  | 2 => { bilateralD := 5, bilateralSigmaColor := 50, bilateralSigmaSpace := 50,
           medianBlur := 3, adaptiveBlockSize := 7, adaptiveC := 1,
           intensity := 1 }          -- strong
  | 3 => { bilateralD := 3, bilateralSigmaColor := 30, bilateralSigmaSpace := 30,
           medianBlur := 3, adaptiveBlockSize := 5, adaptiveC := 0,
           intensity := 1 }          -- sketch

/-- One user action on the filter configuration: a preset button or one of the
six sliders.  `setSigma` is the single "色の保持度" slider, which writes the
same parsed value to both sigma fields (lines 1198-1202 and 1536-1540). -/
inductive ConfigAction where
  | preset (i : Fin 4)
  | setIntensity (v : ℚ)
  | setBilateralD (v : ℕ)
  | setSigma (v : ℕ)
  | setMedianBlur (v : ℕ)
  | setBlockSize (v : ℕ)
  | setAdaptiveC (v : ℕ)
deriving Repr, DecidableEq

/-- State transition of `filterParams` under one action, following the
`setFilterParams` call sites in part_000. -/
def applyAction (a : ConfigAction) (p : FilterParams) : FilterParams :=
  match a with
  | .preset i => filterPresets i
  | .setIntensity v => { p with intensity := v }
  | .setBilateralD v => { p with bilateralD := v }
  | .setSigma v => { p with bilateralSigmaColor := v, bilateralSigmaSpace := v }
  | .setMedianBlur v => { p with medianBlur := v }
  | .setBlockSize v => { p with adaptiveBlockSize := v }
  | .setAdaptiveC v => { p with adaptiveC := v }

/-- The configuration reached from the initial state after a sequence of
actions. -/
def configAfter (acts : List ConfigAction) : FilterParams :=
  acts.foldl (fun p a => applyAction a p) defaultFilterParams

/-! ### Helper lemmas -/

theorem floorHalfEqDiv (n : ℕ) : ⌊(n : ℚ) / 2⌋₊ = n / 2 := by
  rw [show ((2 : ℚ)) = ((2 : ℕ) : ℚ) by norm_num]
  exact Nat.floor_div_eq_div ..

theorem floorThreeQuartersEqDiv (n : ℕ) : ⌊(n : ℚ) * (3 / 4)⌋₊ = n * 3 / 4 := by
  rw [show (n : ℚ) * (3 / 4) = ((n * 3 : ℕ) : ℚ) / ((4 : ℕ) : ℚ) by push_cast; ring]
  exact Nat.floor_div_eq_div ..

theorem recordCycleBounds (m : Bool) (e : ℚ) (fs : ℕ) (h1 : 1 ≤ fs) (h4 : fs ≤ 4) :
    1 ≤ recordCycle m e fs ∧ recordCycle m e fs ≤ 4 := by
  unfold recordCycle
  split_ifs <;> omega

/-! ### Claim theorems -/

/-- C1: the claim says tier-scaling keeps every odd kernel-size parameter odd
and ≥ 3.  The code violates the oddness half: with the default parameters
(`adaptiveBlockSize = 9`, odd and ≥ 3), Low-tier scaling produces
`max(3, floor(9 / 2)) = 4`, an even block size (which `cv.adaptiveThreshold`
rejects at runtime).  The claim's concrete example `bilateralD = 7 → 3` does
hold.  This theorem evaluates the code at the failing input. -/
theorem C1_low_scaling_even_blockSize :
    (adjustParams .low defaultFilterParams).adaptiveBlockSize = 4 ∧
    ¬ Odd (adjustParams .low defaultFilterParams).adaptiveBlockSize ∧
    (adjustParams .low defaultFilterParams).bilateralD = 3 := by
  refine ⟨rfl, ?_, rfl⟩
  rw [Nat.odd_iff]
  decide

/-- C2 counterexample: the claim states the FrameSkip decrease clause has no
constrained-context precondition, but the code guards it with `isMobile`.  On
a non-constrained context with `elapsedMs = 30` and `frameSkip = 2`, the code
leaves FrameSkip at 2 while the claim's rule would lower it to 1. -/
theorem C2_decrease_requires_mobile_cex :
    recordCycle false 30 2 = 2 ∧ recordCycleClaimC2 false 30 2 = 1 ∧
    recordCycle false 30 2 ≠ recordCycleClaimC2 false 30 2 := by
  refine ⟨?_, ?_, ?_⟩ <;> norm_num [recordCycle, recordCycleClaimC2]

/-- C2 (amended): for FrameSkip in [1, 4], `recordCycle` behaves exactly as:
if the context is constrained and elapsedMs exceeds 100 ms, FrameSkip becomes
`min (frameSkip + 1) 4`; else if the context is constrained, elapsedMs is
below 50 ms and FrameSkip > 1, FrameSkip decreases by 1; otherwise it is
unchanged.  (The decrease clause, like the increase clause, requires the
constrained context.) -/
theorem recordCycle_rule (m : Bool) (e : ℚ) (fs : ℕ) (h1 : 1 ≤ fs) (h4 : fs ≤ 4) :
    recordCycle m e fs =
      if m = true ∧ e > 100 then min (fs + 1) 4
      else if m = true ∧ e < 50 ∧ fs > 1 then fs - 1
      else fs := by
  unfold recordCycle
  split_ifs <;> omega

/-- Witness for `recordCycle_rule` at `m = true`, `e = 120`, `fs = 3`. -/
theorem recordCycle_rule_witness :
    (1 ≤ 3 ∧ 3 ≤ 4) ∧
    recordCycle true 120 3 =
      (if true = true ∧ (120 : ℚ) > 100 then min (3 + 1) 4
       else if true = true ∧ (120 : ℚ) < 50 ∧ 3 > 1 then 3 - 1
       else 3) :=
  ⟨⟨by norm_num, by norm_num⟩,
    recordCycle_rule true 120 3 (by norm_num) (by norm_num)⟩

/-- C3: from any frameSkip seed in [1, 4], every sequence of `recordCycle`
calls keeps FrameSkip in [1, 4]; and 10 consecutive calls with
`elapsedMs = 120` in a constrained context leave FrameSkip saturated at 4. -/
theorem frameSkip_bounded (m : Bool) (es : List ℚ) (fs : ℕ)
    (h1 : 1 ≤ fs) (h4 : fs ≤ 4) :
    (1 ≤ runCycles m es fs ∧ runCycles m es fs ≤ 4) ∧
    runCycles true (List.replicate 10 120) fs = 4 := by
  constructor
  · induction es generalizing fs with
    | nil => exact ⟨h1, h4⟩
    | cons e es ih =>
        have hstep := recordCycleBounds m e fs h1 h4
        simpa [runCycles, List.foldl] using ih (recordCycle m e fs) hstep.1 hstep.2
  · interval_cases fs <;> decide

/-- Witness for `frameSkip_bounded` at `m = true`, `es = [120, 30]`, `fs = 2`. -/
theorem frameSkip_bounded_witness :
    (1 ≤ 2 ∧ 2 ≤ 4) ∧
    ((1 ≤ runCycles true [120, 30] 2 ∧ runCycles true [120, 30] 2 ≤ 4) ∧
      runCycles true (List.replicate 10 120) 2 = 4) :=
  ⟨⟨by norm_num, by norm_num⟩,
    frameSkip_bounded true [120, 30] 2 (by norm_num) (by norm_num)⟩

/-- C8 counterexample: the claim says the Medium tier multiplies both the
smoothing radius and the denoise kernel size by 0.75 (floor 3), but the code
scales only `bilateralD` under Medium: with the default parameters,
`medianBlur` stays 5 while the claimed rule would give `max 3 (5 * 3 / 4) = 3`. -/
theorem C8_medium_medianBlur_cex :
    (adjustParams .medium defaultFilterParams).medianBlur = 5 ∧
    max 3 (5 * 3 / 4) = 3 ∧
    (adjustParams .medium defaultFilterParams).medianBlur ≠ max 3 (5 * 3 / 4) := by
  refine ⟨rfl, rfl, ?_⟩
  decide

/-- C8 (amended): when the tier is not High, the derived-parameter scaling is
exactly: under Low, the smoothing radius, the denoise kernel size and the
adaptive block size are each halved (floor of the quotient) with a lower bound
of 3, with no forcing to odd; under Medium, only the smoothing radius is
multiplied by 0.75 (floored) with a lower bound of 3; every other parameter is
unchanged, and the High tier changes nothing. -/
theorem adjustParams_tier_scaling (p : FilterParams) :
    adjustParams .high p = p ∧
    adjustParams .medium p =
      { p with bilateralD := max 3 ⌊(p.bilateralD : ℚ) * (3 / 4)⌋₊ } ∧
    adjustParams .low p =
      { p with
        bilateralD := max 3 ⌊(p.bilateralD : ℚ) / 2⌋₊
        medianBlur := max 3 ⌊(p.medianBlur : ℚ) / 2⌋₊
        adaptiveBlockSize := max 3 ⌊(p.adaptiveBlockSize : ℚ) / 2⌋₊ } := by
  refine ⟨rfl, ?_, ?_⟩ <;>
    simp [adjustParams, floorHalfEqDiv, floorThreeQuartersEqDiv]

/-- Case analysis of one `cartoonizeImage` run: either some primitive call
threw and the returned buffer is a fresh copy of the original input (the
catch-block fallback, or the intensity-0 short-circuit), or no invoked
primitive failed and a buffer is returned.  Requires only that the fallback
copy itself does not throw. -/
theorem cartoonizeCases (p : FilterParams) (q : Quality) (rgb : Bool)
    (fails : Prim → Bool) (hcopy : fails Prim.copyTo = false) :
    (∃ i, (cartoonizeImage p q rgb fails).1 = some ⟨i, MatVal.copy .input⟩) ∨
    ((∀ pr ∈ (cartoonizeImage p q rgb fails).2.calls, fails pr = false) ∧
      ∃ b, (cartoonizeImage p q rgb fails).1 = some b) := by
  cases h1 : fails (if rgb = true then Prim.copyTo else Prim.cvtColorRGBA2RGB) with
  | true =>
      exact Or.inl ⟨1, by simp [cartoonizeImage, invoke, newMat, deleteMat, initState, catchFallback, h1, hcopy]⟩
  | false =>
  by_cases h2 : p.intensity = 0
  · refine Or.inr ⟨?_, ?_⟩ <;> simp [cartoonizeImage, invoke, newMat, deleteMat, initState, catchFallback, h1, h2, hcopy]
  · cases h3 : fails Prim.bilateralFilter with
    | true => exact Or.inl ⟨2, by simp [cartoonizeImage, invoke, newMat, deleteMat, initState, catchFallback, h1, h2, h3, hcopy]⟩
    | false =>
    cases h4 : fails Prim.cvtColorRGB2GRAY with
    | true => exact Or.inl ⟨3, by simp [cartoonizeImage, invoke, newMat, deleteMat, initState, catchFallback, h1, h2, h3, h4, hcopy]⟩
    | false =>
    cases h5 : fails Prim.medianBlurCall with
    | true => exact Or.inl ⟨4, by simp [cartoonizeImage, invoke, newMat, deleteMat, initState, catchFallback, h1, h2, h3, h4, h5, hcopy]⟩
    | false =>
    cases h6 : fails Prim.adaptiveThresholdCall with
    | true => exact Or.inl ⟨5, by simp [cartoonizeImage, invoke, newMat, deleteMat, initState, catchFallback, h1, h2, h3, h4, h5, h6, hcopy]⟩
    | false =>
    cases h7 : fails Prim.cvtColorGRAY2RGB with
    | true => exact Or.inl ⟨6, by simp [cartoonizeImage, invoke, newMat, deleteMat, initState, catchFallback, h1, h2, h3, h4, h5, h6, h7, hcopy]⟩
    | false =>
    cases h8 : fails Prim.bitwiseAnd with
    | true => exact Or.inl ⟨7, by simp [cartoonizeImage, invoke, newMat, deleteMat, initState, catchFallback, h1, h2, h3, h4, h5, h6, h7, h8, hcopy]⟩
    | false =>
    by_cases h9 : p.intensity < 1
    · cases h10 : fails Prim.addWeighted with
      | true => exact Or.inl ⟨8, by simp [cartoonizeImage, invoke, newMat, deleteMat, initState, catchFallback, h1, h2, h3, h4, h5, h6, h7, h8, h9, h10, hcopy]⟩
      | false => refine Or.inr ⟨?_, ?_⟩ <;> simp [cartoonizeImage, invoke, newMat, deleteMat, initState, catchFallback, h1, h2, h3, h4, h5, h6, h7, h8, h9, h10, hcopy]
    · refine Or.inr ⟨?_, ?_⟩ <;> simp [cartoonizeImage, invoke, newMat, deleteMat, initState, catchFallback, h1, h2, h3, h4, h5, h6, h7, h8, h9, hcopy]

/-- With a fallback copy that does not itself throw, no exception escapes
`cartoonizeImage`: it always returns a buffer. -/
theorem cartoonize_total (p : FilterParams) (q : Quality) (rgb : Bool)
    (fails : Prim → Bool) (hcopy : fails .copyTo = false) :
    ((cartoonizeImage p q rgb fails).1).isSome = true := by
  rcases cartoonizeCases p q rgb fails hcopy with ⟨i, h⟩ | ⟨-, b, h⟩ <;> simp [h]

/-- C4 counterexample: with `intensity = 0` (default parameters otherwise,
RGBA input) the code returns a copy of the original input frame, a 4-channel
buffer, not a copy of the normalized 3-channel color buffer as the claim
states. -/
theorem C4_passthrough_copies_input_cex :
    (cartoonizeImage { defaultFilterParams with intensity := 0 } .high false
        noFail).1 = some ⟨1, .copy .input⟩ ∧
    channels false (MatVal.copy .input) = 4 ∧
    channels false (normVal false) = 3 ∧
    MatVal.copy .input ≠ MatVal.copy (normVal false) := by
  decide

/-- C4 (amended): when `intensity = 0`, `cartoonizeImage` performs only the
color normalization (then discards its result) and one copy — it never invokes
the smoothing, grayscale, denoise, binarize, mask-expansion, combine or blend
primitives — and it returns a copy of the original input frame (not of the
normalized 3-channel buffer). -/
theorem intensity_zero_passthrough (p : FilterParams) (q : Quality) (rgb : Bool)
    (h : p.intensity = 0) :
    (cartoonizeImage p q rgb noFail).1 = some ⟨1, .copy .input⟩ ∧
    (cartoonizeImage p q rgb noFail).2.calls =
      [if rgb then Prim.copyTo else Prim.cvtColorRGBA2RGB, Prim.copyTo] := by
  cases rgb <;>
    simp [cartoonizeImage, newMat, invoke, deleteMat, initState, noFail, h]

/-- Witness for `intensity_zero_passthrough` at the default parameters with
`intensity := 0`, High tier, RGBA input. -/
theorem intensity_zero_passthrough_witness :
    (cartoonizeImage { defaultFilterParams with intensity := 0 } .high false
        noFail).1 = some ⟨1, .copy .input⟩ ∧
    (cartoonizeImage { defaultFilterParams with intensity := 0 } .high false
        noFail).2.calls =
      [if false then Prim.copyTo else Prim.cvtColorRGBA2RGB, Prim.copyTo] :=
  intensity_zero_passthrough { defaultFilterParams with intensity := 0 } .high
    false rfl

/-- C5: if any primitive call inside `cartoonizeImage` throws (and the
fallback copy itself succeeds), the stage returns a fresh copy of the original
input frame — never a partially-constructed buffer — the exception does not
escape, and the surrounding tick still reaches rendering. -/
theorem primitive_failure_fallback (p : FilterParams) (q : Quality) (rgb : Bool)
    (fails : Prim → Bool) (m : Bool) (e : ℚ) (fs : ℕ) (nr : Bool)
    (hcopy : fails .copyTo = false)
    (hfail : ∃ pr ∈ (cartoonizeImage p q rgb fails).2.calls, fails pr = true) :
    (∃ i, (cartoonizeImage p q rgb fails).1 = some ⟨i, .copy .input⟩) ∧
    ((drawTick p q rgb fails m e fs false nr).rendered).isSome = true := by
  constructor
  · rcases cartoonizeCases p q rgb fails hcopy with h | ⟨hall, -⟩
    · exact h
    · obtain ⟨pr, hpr, hf⟩ := hfail
      rw [hall pr hpr] at hf
      simp at hf
  · have h := cartoonize_total p q rgb fails hcopy
    rcases hsome : (cartoonizeImage p q rgb fails).1 with _ | b
    · rw [hsome] at h
      simp at h
    · simp [drawTick, hsome]

/-- Witness for `primitive_failure_fallback`: the adaptiveThreshold call
throws, everything else succeeds. -/
theorem primitive_failure_fallback_witness :
    (∃ i, (cartoonizeImage defaultFilterParams .high false
        (fun pr => pr == .adaptiveThresholdCall)).1 = some ⟨i, .copy .input⟩) ∧
    ((drawTick defaultFilterParams .high false
        (fun pr => pr == .adaptiveThresholdCall) true 120 1 false
        true).rendered).isSome = true :=
  primitive_failure_fallback defaultFilterParams .high false
    (fun pr => pr == .adaptiveThresholdCall) true 120 1 true (by decide)
    (by decide)

/-- C6: the claim says every intermediate buffer is released before
`cartoonizeImage` returns on the error path too.  The code's `catch` block
releases nothing: when the adaptiveThreshold call throws, the five
intermediates allocated before it (ids 0-4) are still live at return, next to
the returned fallback buffer (id 5).  On the fully successful path the
discipline does hold (only the returned buffer, id 6, is live).  This theorem
evaluates the code at the failing input. -/
theorem C6_error_path_leaks_intermediates :
    (cartoonizeImage defaultFilterParams .high false
        (fun pr => pr == .adaptiveThresholdCall)).1 = some ⟨5, .copy .input⟩ ∧
    (cartoonizeImage defaultFilterParams .high false
        (fun pr => pr == .adaptiveThresholdCall)).2.live = [0, 1, 2, 3, 4, 5] ∧
    List.erase [0, 1, 2, 3, 4, 5] 5 ≠ ([] : List ℕ) ∧
    (cartoonizeImage defaultFilterParams .high false noFail).2.live = [6] := by
  decide

/-- C7 counterexample: `intensity = 0` satisfies `intensity < 1.0`, but the
output is then a copy of the original input frame, not the weighted blend of
the normalized color buffer (weight 1) with the raw cartoon buffer
(weight 0). -/
theorem C7_blend_cex :
    ((cartoonizeImage { defaultFilterParams with intensity := 0 } .high false
        noFail).1.map Buf.val) = some (MatVal.copy .input) ∧
    MatVal.copy .input ≠
      MatVal.blend (1 - 0) (normVal false) 0
        (rawCartoonVal { defaultFilterParams with intensity := 0 } .high false) := by
  decide

/-- C7 (amended): for `0 < intensity < 1.0` the final output is the weighted
blend of the original normalized (pre-smoothing) color buffer with weight
`1 - intensity` and the raw cartoon buffer with weight `intensity`; for
`intensity ≥ 1.0` (so in particular `intensity = 1.0`) the raw cartoon buffer
itself is the output.  (`intensity = 0` takes the passthrough short-circuit
instead.) -/
theorem blend_semantics (p : FilterParams) (q : Quality) (rgb : Bool)
    (h0 : 0 < p.intensity) :
    (p.intensity < 1 →
      (cartoonizeImage p q rgb noFail).1 =
        some ⟨7, .blend (1 - p.intensity) (normVal rgb) p.intensity
          (rawCartoonVal p q rgb)⟩) ∧
    (1 ≤ p.intensity →
      (cartoonizeImage p q rgb noFail).1 = some ⟨6, rawCartoonVal p q rgb⟩) := by
  have hne : p.intensity ≠ 0 := ne_of_gt h0
  constructor
  · intro hlt
    cases rgb <;>
      simp [cartoonizeImage, newMat, invoke, deleteMat, initState, noFail, hne,
        hlt, normVal, rawCartoonVal]
  · intro hge
    have hnlt : ¬ p.intensity < 1 := not_lt.mpr hge
    cases rgb <;>
      simp [cartoonizeImage, newMat, invoke, deleteMat, initState, noFail, hne,
        hnlt, normVal, rawCartoonVal]

/-- Witness for `blend_semantics` at `intensity = 1/2`, High tier, RGBA
input. -/
theorem blend_semantics_witness :
    (({ defaultFilterParams with intensity := 1/2 } : FilterParams).intensity < 1 →
      (cartoonizeImage { defaultFilterParams with intensity := 1/2 } .high false
          noFail).1 =
        some ⟨7, .blend
          (1 - ({ defaultFilterParams with intensity := 1/2 } : FilterParams).intensity)
          (normVal false)
          ({ defaultFilterParams with intensity := 1/2 } : FilterParams).intensity
          (rawCartoonVal { defaultFilterParams with intensity := 1/2 } .high false)⟩) ∧
    (1 ≤ ({ defaultFilterParams with intensity := 1/2 } : FilterParams).intensity →
      (cartoonizeImage { defaultFilterParams with intensity := 1/2 } .high false
          noFail).1 =
        some ⟨6, rawCartoonVal { defaultFilterParams with intensity := 1/2 } .high
          false⟩) :=
  blend_semantics { defaultFilterParams with intensity := 1/2 } .high false
    (by norm_num)

/-- C9 counterexample: in a processed tick the events strictly between the two
timestamps are not just the CartoonizeStage call — the capture/downsample and
the render (and the upsample) sit inside the measured interval, so the start
timestamp is not immediately before `cartoonizeImage` nor the end timestamp
immediately after it. -/
theorem C9_timestamps_not_adjacent_cex :
    (drawTick defaultFilterParams .low false noFail true 120 1 false true).events =
      [.timestampStart, .captureDownsample, .matFromImageData, .cartoonize,
        .upsample, .render, .timestampEnd, .feedRecordCycle] ∧
    ¬ bracketsCartoonizeOnly
        (drawTick defaultFilterParams .low false noFail true 120 1 false
          true).events := by
  constructor
  · decide
  · unfold bracketsCartoonizeOnly
    decide

/-- C9 (amended): the elapsed-time sample fed into the frame-skip controller
brackets the whole processing tick, not the CartoonizeStage invocation alone:
the start timestamp precedes the frame capture/downsample, which precedes the
CartoonizeStage call, the render follows it, the end timestamp comes after the
render, and only the controller feed follows the end timestamp. -/
theorem timing_brackets_whole_tick (p : FilterParams) (q : Quality) (rgb : Bool)
    (m : Bool) (e : ℚ) (fs : ℕ) (nr : Bool) :
    (drawTick p q rgb noFail m e fs false nr).events.indexOf .timestampStart <
      (drawTick p q rgb noFail m e fs false nr).events.indexOf .captureDownsample ∧
    (drawTick p q rgb noFail m e fs false nr).events.indexOf .captureDownsample <
      (drawTick p q rgb noFail m e fs false nr).events.indexOf .cartoonize ∧
    (drawTick p q rgb noFail m e fs false nr).events.indexOf .cartoonize <
      (drawTick p q rgb noFail m e fs false nr).events.indexOf .render ∧
    (drawTick p q rgb noFail m e fs false nr).events.indexOf .render <
      (drawTick p q rgb noFail m e fs false nr).events.indexOf .timestampEnd ∧
    (drawTick p q rgb noFail m e fs false nr).events.indexOf .timestampEnd <
      (drawTick p q rgb noFail m e fs false nr).events.indexOf .feedRecordCycle := by
  have h := cartoonize_total p q rgb noFail rfl
  rcases hsome : (cartoonizeImage p q rgb noFail).1 with _ | b
  · rw [hsome] at h
    simp at h
  · cases nr <;> simp [drawTick, hsome]

/-- C10: every reachable filter configuration keeps
`bilateralSigmaColor = bilateralSigmaSpace`: the initial state sets both to
75, every preset assigns them the same value, and the only control touching
either writes the same parsed value to both. -/
theorem sigma_fields_equal (acts : List ConfigAction) :
    defaultFilterParams.bilateralSigmaColor = 75 ∧
    defaultFilterParams.bilateralSigmaSpace = 75 ∧
    (configAfter acts).bilateralSigmaColor = (configAfter acts).bilateralSigmaSpace := by
  refine ⟨rfl, rfl, ?_⟩
  have key : ∀ (acts : List ConfigAction) (p : FilterParams),
      p.bilateralSigmaColor = p.bilateralSigmaSpace →
      (acts.foldl (fun p a => applyAction a p) p).bilateralSigmaColor =
        (acts.foldl (fun p a => applyAction a p) p).bilateralSigmaSpace := by
    intro acts
    induction acts with
    | nil => intro p hp; exact hp
    | cons a acts ih =>
        intro p hp
        refine ih (applyAction a p) ?_
        cases a with
        | preset i => fin_cases i <;> rfl
        | setSigma v => rfl
        | setIntensity v => exact hp
        | setBilateralD v => exact hp
        | setMedianBlur v => exact hp
        | setBlockSize v => exact hp
        | setAdaptiveC v => exact hp
  exact key acts defaultFilterParams rfl

end AnimeFilter
